import Mathlib

/-!
Shallow embedding of the rickland generic containers:
`Result<T,E>` from src/c/dsa/result/result.h and `Array<T>` from
src/c/dsa/array/array.h.

Modelling conventions:
- a heap handle `Self *` is an `Option` value, `none` being the NULL pointer;
- a pointer into an array (`T *` returned by get/replace) is the element
  index it points at, resolved against the current contents by `derefElem`;
- a function body that writes through a NULL pointer (undefined behaviour in
  the C source) is a `CRun.nullDeref` outcome;
- allocation outcomes (`malloc`/`calloc` succeeding or not) are explicit
  boolean parameters of the constructors;
- the `union { T _ok; E _err; }` is a sum: reading the inactive member is
  modelled as an absent value.
-/

namespace Rickland

/-- One run of a C function: either it returns a value, or it writes through a
NULL pointer, which is undefined behaviour in the source. -/
inductive CRun (α : Type) where
  | returns (a : α)
  | nullDeref
  deriving DecidableEq

/-- The record behind `Result<T,E>`:
`typedef struct { bool _is_ok; union { T _ok; E _err; }; } Self;`.
The union stores exactly one of the two members. -/
structure CResult (T E : Type) where
  is_ok : Bool
  payload : Sum T E
  deriving DecidableEq

variable {T E : Type}

/-- Reading the `_ok` union member: the stored value when the success member is
live, absent when the inactive member would be read. -/
def CResult.okField (r : CResult T E) : Option T :=
  match r.payload with
  | Sum.inl v => some v
  | Sum.inr _ => none

/-- Reading the `_err` union member, symmetric to `CResult.okField`. -/
def CResult.errField (r : CResult T E) : Option E :=
  match r.payload with
  | Sum.inl _ => none
  | Sum.inr e => some e

/-- A Result as the two constructors build it: the live union member matches
the discriminant. -/
def CResult.WellFormed (r : CResult T E) : Prop :=
  r.is_ok = r.payload.isLeft

instance (r : CResult T E) : Decidable r.WellFormed := by
  unfold CResult.WellFormed; infer_instance

/-- `Result_T_E_success`: `malloc`, `ensure(result, NULL)`, then fill
`_is_ok = true` and `_ok = value`. On allocation failure the NULL handle is
returned before anything is written. -/
def Result_success (mallocOk : Bool) (v : T) : Option (CResult T E) :=
  if mallocOk then some { is_ok := true, payload := Sum.inl v } else none

/-- `Result_T_E_fail`: `malloc`, `ensure(result, NULL)`, then fill
`_is_ok = false` and `_err = error`. -/
def Result_fail (mallocOk : Bool) (e : E) : Option (CResult T E) :=
  if mallocOk then some { is_ok := false, payload := Sum.inr e } else none

/-- Outcome of one call to `Result_T_E_delete`: whether `free(result)`
executed, and the returned boolean. `returned = none` records that control
reached the end of the `bool`-returning function without a return statement,
so the call yields no defined value. -/
structure ResultDeleteRun where
  freedContainer : Bool
  returned : Option Bool
  deriving DecidableEq

/-- `Result_T_E_delete`: `ensure(result, false); free(result);` — note the
body has no `return true` after the `free`. -/
def Result_delete (r : Option (CResult T E)) : ResultDeleteRun :=
  match r with
  | none => { freedContainer := false, returned := some false }
  | some _ => { freedContainer := true, returned := none }

/-- `Result_T_E_is_ok`: `ensure(result, false); return result->_is_ok;`. -/
def Result_is_ok (r : Option (CResult T E)) : Bool :=
  match r with
  | none => false
  | some res => res.is_ok

/-- `Result_T_E_is_err`: `ensure(result, false); return not result->_is_ok;`. -/
def Result_is_err (r : Option (CResult T E)) : Bool :=
  match r with
  | none => false
  | some res => !res.is_ok

/-- `Result_T_E_value`: NULL on a NULL handle or in the error state, otherwise
a pointer to `_ok` (modelled by the value it reads). -/
def Result_value (r : Option (CResult T E)) : Option T :=
  match r with
  | none => none
  | some res => if res.is_ok then res.okField else none

/-- `Result_T_E_error`: NULL on a NULL handle or in the success state,
otherwise a pointer to `_err`. -/
def Result_error (r : Option (CResult T E)) : Option E :=
  match r with
  | none => none
  | some res => if res.is_ok then none else res.errField

/-- `Result_T_E_value_or`: `ensure(result, NULL);` then
`_is_ok ? &result->_ok : fallback`. The fallback is itself a `T *`. -/
def Result_value_or (r : Option (CResult T E)) (fallback : Option T) : Option T :=
  match r with
  | none => none
  | some res => if res.is_ok then res.okField else fallback

/-- `Result_T_E_error_or`: `ensure(result, NULL);` then
`!_is_ok ? &result->_err : fallback`. -/
def Result_error_or (r : Option (CResult T E)) (fallback : Option E) : Option E :=
  match r with
  | none => none
  | some res => if res.is_ok then fallback else res.errField

/-- `Result_T_E_value_or_else`: like `value_or` but the fallback is a supplier
invoked only in the non-success branch of the conditional operator. The second
component records whether the supplier was invoked during the call. -/
def Result_value_or_else (r : Option (CResult T E)) (or_else : Unit → Option T) :
    Option T × Bool :=
  match r with
  | none => (none, false)
  | some res => if res.is_ok then (res.okField, false) else (or_else (), true)

/-- `Result_T_E_error_or_else`, symmetric to `Result_value_or_else`. -/
def Result_error_or_else (r : Option (CResult T E)) (or_else : Unit → Option E) :
    Option E × Bool :=
  match r with
  | none => (none, false)
  | some res => if res.is_ok then (or_else (), true) else (res.errField, false)

/-- The record behind `Array<T>`:
`typedef struct { T* data; size_t _size; } Self;`.
`data = none` models a NULL `data` pointer (a failed `calloc`). -/
structure CArray (T : Type) where
  data : Option (List T)
  size : Nat
  deriving DecidableEq

/-- `Array_T_new`: `malloc(sizeof(Self))`, then — with no check of either
allocation — `array->data = calloc(size, sizeof(T)); array->_size = size;
return array;`. `zero` is the all-bits-zero element `calloc` fills slots
with. If `malloc` fails, the very next statement writes through the NULL
handle; if `calloc` fails, the returned record carries a NULL `data`. -/
def Array_new (zero : T) (mallocOk callocOk : Bool) (size : Nat) :
    CRun (Option (CArray T)) :=
  if mallocOk then
    CRun.returns (some
      { data := if callocOk then some (List.replicate size zero) else none
        size := size })
  else
    CRun.nullDeref

/-- The handle a completed allocation run produced (projection used to chain
concrete runs; a run that ended in undefined behaviour yields no handle). -/
def allocResult : CRun (Option α) → Option α
  | CRun.returns a => a
  | CRun.nullDeref => none

/-- Outcome of one call to `Array_T_delete`: which of the two `free`s ran and
the returned boolean. -/
structure DeleteRun where
  freedData : Bool
  freedContainer : Bool
  returned : Bool
  deriving DecidableEq

/-- `Array_T_delete`: `ensure(array, false); free(array->data); free(array);
return true;`. -/
def Array_delete (a : Option (CArray T)) : DeleteRun :=
  match a with
  | none => { freedData := false, freedContainer := false, returned := false }
  | some _ => { freedData := true, freedContainer := true, returned := true }

/-- `Array_T_get`: `ensure(array, NULL); ensure(index < array->_size, NULL);
return &array->data[index];`. The returned pointer is the index it points
at; it reads whatever the slot holds when dereferenced. -/
def Array_get (a : Option (CArray T)) (index : Nat) : Option Nat :=
  match a with
  | none => none
  | some arr => if index < arr.size then some index else none

/-- Dereference a pointer produced by `Array_get` or `Array_replace` against
the current array contents: `*p` at the moment of the read. -/
def derefElem (a : Option (CArray T)) (p : Option Nat) : Option T :=
  match a, p with
  | some arr, some i => arr.data.bind fun l => l[i]?
  | _, _ => none

/-- `Array_T_set`: `ensure(array, false); ensure(index < array->_size, false);
array->data[index] = value; return true;`. The write goes through `data`,
so a NULL `data` makes the run undefined; otherwise the outcome carries the
returned boolean and the array state after the call. -/
def Array_set (a : Option (CArray T)) (index : Nat) (v : T) :
    CRun (Bool × Option (CArray T)) :=
  match a with
  | none => CRun.returns (false, none)
  | some arr =>
    if index < arr.size then
      match arr.data with
      | none => CRun.nullDeref
      | some l => CRun.returns (true, some { arr with data := some (l.set index v) })
    else
      CRun.returns (false, some arr)

/-- `Array_T_replace`: after the two `ensure` guards,
`T * old_value = get(array, index); set(array, index, value);
return old_value;` — the pointer captured before the overwrite is returned
after it. The outcome carries the returned pointer and the array state. -/
def Array_replace (a : Option (CArray T)) (index : Nat) (v : T) :
    CRun (Option Nat × Option (CArray T)) :=
  match a with
  | none => CRun.returns (none, none)
  | some arr =>
    if index < arr.size then
      let old := Array_get (some arr) index
      match Array_set (some arr) index v with
      | CRun.returns (_, a2) => CRun.returns (old, a2)
      | CRun.nullDeref => CRun.nullDeref
    else
      CRun.returns (none, some arr)

/-- `Array_T_size`: `ensure(array, 0); return array->_size;`. -/
def Array_size (a : Option (CArray T)) : Nat :=
  match a with
  | none => 0
  | some arr => arr.size

/-- The array state after a completed `Array_set` call (projection used to
chain concrete runs). -/
def Array_set_state (a : Option (CArray T)) (index : Nat) (v : T) :
    Option (CArray T) :=
  match Array_set a index v with
  | CRun.returns (_, a2) => a2
  | CRun.nullDeref => none

/-- The pointer a completed `Array_replace` call returned. -/
def Array_replace_ptr (a : Option (CArray T)) (index : Nat) (v : T) :
    Option Nat :=
  match Array_replace a index v with
  | CRun.returns (p, _) => p
  | CRun.nullDeref => none

/-- The array state after a completed `Array_replace` call. -/
def Array_replace_state (a : Option (CArray T)) (index : Nat) (v : T) :
    Option (CArray T) :=
  match Array_replace a index v with
  | CRun.returns (_, a2) => a2
  | CRun.nullDeref => none

/-! Theorems settling the claims. -/

/-- C5: for every value `v`, `success(v)` yields a Result with `is_ok = true`
and `value(·) = v`; for every error `e`, `fail(e)` yields a Result with
`is_ok = false` and `error(·) = e` (allocation succeeding). -/
theorem success_fail_observers (v : T) (e : E) :
    Result_is_ok (Result_success true v : Option (CResult T E)) = true ∧
    Result_value (Result_success true v : Option (CResult T E)) = some v ∧
    Result_is_ok (Result_fail true e : Option (CResult T E)) = false ∧
    Result_error (Result_fail true e : Option (CResult T E)) = some e := by
  refine ⟨rfl, rfl, rfl, rfl⟩

/-- C2 counterexample: `value_or` on a NULL handle returns NULL, not the
supplied fallback — here the fallback points at `5` yet NULL comes back. -/
theorem value_or_null_returns_null :
    Result_value_or (none : Option (CResult Int Int)) (some 5) = none ∧
    Result_value_or (none : Option (CResult Int Int)) (some 5) ≠ some 5 := by
  refine ⟨rfl, by decide⟩

/-- C2 amended: `value_or` returns the success value in success state and the
fallback in error state; `error_or` returns the error value in error state and
the fallback in success state; on a NULL handle both return NULL (absent),
not the fallback. -/
theorem value_or_error_or_spec (v : T) (e : E) (fb : Option T) (fe : Option E) :
    Result_value_or (Result_success true v : Option (CResult T E)) fb = some v ∧
    Result_value_or (Result_fail true e : Option (CResult T E)) fb = fb ∧
    Result_value_or (none : Option (CResult T E)) fb = none ∧
    Result_error_or (Result_fail true e : Option (CResult T E)) fe = some e ∧
    Result_error_or (Result_success true v : Option (CResult T E)) fe = fe ∧
    Result_error_or (none : Option (CResult T E)) fe = none := by
  refine ⟨rfl, rfl, rfl, rfl, rfl, rfl⟩

/-- C7: `value_or_else` in success state returns the success value with the
supplier not invoked; the supplier runs exactly in the error branch, and a
NULL handle short-circuits to NULL without invoking it either. -/
theorem value_or_else_laziness (v : T) (e : E) (f : Unit → Option T) :
    Result_value_or_else (Result_success true v : Option (CResult T E)) f
      = (some v, false) ∧
    Result_value_or_else (Result_fail true e : Option (CResult T E)) f
      = (f (), true) ∧
    Result_value_or_else (none : Option (CResult T E)) f = (none, false) := by
  refine ⟨rfl, rfl, rfl⟩

/-- C4 counterexample: when `malloc` fails, `Array_new` does not return an
absent handle — its next statement writes through the NULL pointer. -/
theorem array_new_alloc_failure_cex :
    Array_new (0 : Int) false true 1 = CRun.nullDeref ∧
    (CRun.nullDeref : CRun (Option (CArray Int))) ≠ CRun.returns none := by
  refine ⟨rfl, by decide⟩

/-- C4 amended: Result's constructors check the allocation and return the NULL
handle without writing through it; Array's `new` performs no check — a failed
record allocation is written through (undefined behaviour), and a failed
element-storage allocation yields a non-absent handle with NULL backing
storage. -/
theorem constructor_alloc_failure_behavior (T E : Type) :
    (∀ v : T, (Result_success false v : Option (CResult T E)) = none) ∧
    (∀ e : E, (Result_fail false e : Option (CResult T E)) = none) ∧
    (∀ (zero : T) (callocOk : Bool) (n : Nat),
      Array_new zero false callocOk n = CRun.nullDeref) ∧
    (∀ (zero : T) (n : Nat),
      Array_new zero true false n
        = CRun.returns (some { data := none, size := n })) := by
  refine ⟨fun v => rfl, fun e => rfl, fun z c n => rfl, fun z n => rfl⟩

/-- C6: for every non-NULL, constructor-shaped Result, exactly one of
`value(r)` and `error(r)` is present: `value` is present iff the success state
holds, `error` iff the error state holds, and the two are never both present
nor both absent. -/
theorem value_error_exactly_one (r : CResult T E) (h : r.WellFormed) :
    ((Result_value (some r)).isSome = Result_is_ok (some r)) ∧
    ((Result_error (some r)).isSome = Result_is_err (some r)) ∧
    ((Result_error (some r)).isSome = !(Result_value (some r)).isSome) := by
  obtain ⟨ok, p⟩ := r
  cases ok <;> cases p <;>
    simp_all [CResult.WellFormed, Result_value, Result_error, Result_is_ok,
      Result_is_err, CResult.okField, CResult.errField]

/-- Witness for C6 at the concrete Result `⟨true, inl 0⟩ : CResult Int Int`. -/
theorem value_error_exactly_one_witness :
    (⟨true, Sum.inl 0⟩ : CResult Int Int).WellFormed ∧
    (((Result_value (some (⟨true, Sum.inl 0⟩ : CResult Int Int))).isSome
        = Result_is_ok (some (⟨true, Sum.inl 0⟩ : CResult Int Int))) ∧
     ((Result_error (some (⟨true, Sum.inl 0⟩ : CResult Int Int))).isSome
        = Result_is_err (some (⟨true, Sum.inl 0⟩ : CResult Int Int))) ∧
     ((Result_error (some (⟨true, Sum.inl 0⟩ : CResult Int Int))).isSome
        = !(Result_value (some (⟨true, Sum.inl 0⟩ : CResult Int Int))).isSome)) :=
  ⟨by decide, value_error_exactly_one ⟨true, Sum.inl 0⟩ (by decide)⟩

/-- C3: both release operations on a NULL handle return false and free
nothing; on a non-NULL handle Array's delete frees storage and container and
returns true, but Result's delete — after freeing the record — reaches the
end of its `bool` function with no return statement, so it yields no defined
value instead of true. -/
theorem delete_run_results :
    Result_delete (Result_success true 0 : Option (CResult Int Int))
      = { freedContainer := true, returned := none } ∧
    Result_delete (none : Option (CResult Int Int))
      = { freedContainer := false, returned := some false } ∧
    Array_delete (allocResult (Array_new (0 : Int) true true 2))
      = { freedData := true, freedContainer := true, returned := true } ∧
    Array_delete (none : Option (CArray Int))
      = { freedData := false, freedContainer := false, returned := false } := by
  refine ⟨rfl, rfl, rfl, rfl⟩

/-- C1: on a 1-slot Int array holding `10` at slot 0, `replace(a, 0, 20)`
leaves slot 0 holding `20` (as claimed) but the pointer it returns reads `20`
— the overwritten value — not the previous value `10`: the source captures
`&data[index]` before calling `set`, so the pointee the caller observes is the
new value. -/
theorem replace_returns_overwritten_value :
    derefElem (Array_set_state (allocResult (Array_new (0 : Int) true true 1)) 0 10)
      (Array_get (Array_set_state (allocResult (Array_new (0 : Int) true true 1)) 0 10) 0)
      = some 10 ∧
    Array_replace_ptr
      (Array_set_state (allocResult (Array_new (0 : Int) true true 1)) 0 10) 0 20
      = some 0 ∧
    derefElem
      (Array_replace_state
        (Array_set_state (allocResult (Array_new (0 : Int) true true 1)) 0 10) 0 20)
      (Array_replace_ptr
        (Array_set_state (allocResult (Array_new (0 : Int) true true 1)) 0 10) 0 20)
      = some 20 ∧
    derefElem
      (Array_replace_state
        (Array_set_state (allocResult (Array_new (0 : Int) true true 1)) 0 10) 0 20)
      (Array_replace_ptr
        (Array_set_state (allocResult (Array_new (0 : Int) true true 1)) 0 10) 0 20)
      ≠ some 10 := by
  refine ⟨by decide, by decide, by decide, by decide⟩

/-- C8: with both allocations succeeding, `new(n)` yields an array whose
`size` is `n` and whose every slot `i < n` reads the element type's zero
value through `get`. -/
theorem new_size_and_zero_init (zero : T) (n i : Nat) (h : i < n) :
    Array_size (allocResult (Array_new zero true true n)) = n ∧
    derefElem (allocResult (Array_new zero true true n))
      (Array_get (allocResult (Array_new zero true true n)) i) = some zero := by
  refine ⟨rfl, ?_⟩
  simp [Array_new, allocResult, Array_get, derefElem, h]

/-- Witness for C8 at `n = 3`, `i = 1`, Int elements. -/
theorem new_size_and_zero_init_witness :
    1 < 3 ∧
    (Array_size (allocResult (Array_new (0 : Int) true true 3)) = 3 ∧
     derefElem (allocResult (Array_new (0 : Int) true true 3))
       (Array_get (allocResult (Array_new (0 : Int) true true 3)) 1) = some 0) :=
  ⟨by decide, new_size_and_zero_init 0 3 1 (by decide)⟩

/-- C9: on an array whose backing storage matches its recorded size, `set` at
`i < size` succeeds and a subsequent `get` at `i` reads the written value;
at `i ≥ size`, `get` returns NULL and `set` returns false leaving the array
untouched. -/
theorem set_get_bounds_contract (arr : CArray T) (l : List T) (v : T) (i : Nat)
    (hdata : arr.data = some l) (hlen : l.length = arr.size) :
    (i < arr.size →
      Array_set (some arr) i v
        = CRun.returns (true, some { arr with data := some (l.set i v) }) ∧
      derefElem (some { arr with data := some (l.set i v) })
        (Array_get (some { arr with data := some (l.set i v) }) i) = some v) ∧
    (arr.size ≤ i →
      Array_get (some arr) i = none ∧
      Array_set (some arr) i v = CRun.returns (false, some arr)) := by
  constructor
  · intro hi
    constructor
    · simp [Array_set, hi, hdata]
    · have hi2 : i < l.length := by rw [hlen]; exact hi
      simp [Array_get, derefElem, hi, List.getElem?_set_self hi2]
  · intro hi
    constructor
    · simp [Array_get, Nat.not_lt.mpr hi]
    · simp [Array_set, Nat.not_lt.mpr hi]

/-- Witness for C9 at the concrete array `⟨some [1, 2], 2⟩` with `v = 9`,
`i = 0`. -/
theorem set_get_bounds_contract_witness :
    ((⟨some [1, 2], 2⟩ : CArray Int).data = some [1, 2] ∧
     ([1, 2] : List Int).length = (⟨some [1, 2], 2⟩ : CArray Int).size) ∧
    ((0 < (⟨some [1, 2], 2⟩ : CArray Int).size →
       Array_set (some (⟨some [1, 2], 2⟩ : CArray Int)) 0 9
         = CRun.returns (true, some ⟨some (([1, 2] : List Int).set 0 9), 2⟩) ∧
       derefElem (some (⟨some (([1, 2] : List Int).set 0 9), 2⟩ : CArray Int))
         (Array_get (some (⟨some (([1, 2] : List Int).set 0 9), 2⟩ : CArray Int)) 0)
         = some 9) ∧
     ((⟨some [1, 2], 2⟩ : CArray Int).size ≤ 0 →
       Array_get (some (⟨some [1, 2], 2⟩ : CArray Int)) 0 = none ∧
       Array_set (some (⟨some [1, 2], 2⟩ : CArray Int)) 0 9
         = CRun.returns (false, some ⟨some [1, 2], 2⟩))) :=
  ⟨⟨by decide, by decide⟩,
    set_get_bounds_contract ⟨some [1, 2], 2⟩ [1, 2] 9 0 (by decide) (by decide)⟩

/-- C10: a successful `set` at a valid index `i` changes no other slot — any
`j ≠ i` within bounds reads the same value before and after — and the size is
unchanged. -/
theorem set_frame_property (arr arr2 : CArray T) (v : T) (i j : Nat)
    (hi : i < arr.size) (hj : j ≠ i) (hjlt : j < arr.size)
    (hset : Array_set (some arr) i v = CRun.returns (true, some arr2)) :
    Array_size (some arr2) = Array_size (some arr) ∧
    derefElem (some arr2) (Array_get (some arr2) j)
      = derefElem (some arr) (Array_get (some arr) j) := by
  obtain ⟨d, n⟩ := arr
  cases d with
  | none => simp [Array_set, hi] at hset
  | some l =>
    simp only [Array_set, if_pos hi, CRun.returns.injEq, Prod.mk.injEq,
      Option.some.injEq, true_and] at hset
    subst hset
    refine ⟨rfl, ?_⟩
    simp [derefElem, Array_get, hjlt, List.getElem?_set_ne (Ne.symm hj)]

/-- Witness for C10 at the concrete array `⟨some [5, 6], 2⟩`, `i = 0`,
`v = 9`, `j = 1`. -/
theorem set_frame_property_witness :
    (0 < (⟨some [5, 6], 2⟩ : CArray Int).size ∧ 1 ≠ 0 ∧
     1 < (⟨some [5, 6], 2⟩ : CArray Int).size ∧
     Array_set (some (⟨some [5, 6], 2⟩ : CArray Int)) 0 9
       = CRun.returns (true, some ⟨some [9, 6], 2⟩)) ∧
    (Array_size (some (⟨some [9, 6], 2⟩ : CArray Int))
       = Array_size (some (⟨some [5, 6], 2⟩ : CArray Int)) ∧
     derefElem (some (⟨some [9, 6], 2⟩ : CArray Int))
       (Array_get (some (⟨some [9, 6], 2⟩ : CArray Int)) 1)
       = derefElem (some (⟨some [5, 6], 2⟩ : CArray Int))
           (Array_get (some (⟨some [5, 6], 2⟩ : CArray Int)) 1)) :=
  ⟨⟨by decide, by decide, by decide, by decide⟩,
    set_frame_property ⟨some [5, 6], 2⟩ ⟨some [9, 6], 2⟩ 9 0 1
      (by decide) (by decide) (by decide) (by decide)⟩

end Rickland
